import Mathlib

/-!
Verification of the 2D CAD interaction core (XNH_2DCAD).

Shallow embedding of the geometric interaction engine: the coordinate
transforms and distance metric of src/utils/math.ts, the entity/layer data
model of src/types.ts, the hit-test / draw-tool / view / selection handlers
of src/App.tsx, and the DXF serializer of src/utils/math.ts.

Modelling conventions:
- JavaScript numbers are modelled as exact real numbers (the idealisation of
  IEEE doubles); Math.sqrt becomes Real.sqrt, so several definitions are
  noncomputable.
- The serializer output (one big string joined by newlines in the source) is
  modelled as the list of its lines; a line is either literal text or an
  interpolated numeric value.
- Pointer handlers are modelled for a mounted canvas and the primary mouse
  button, with client coordinates taken relative to the canvas origin.
- The status-bar text rendering is outside the model; the command-history
  log, mouse position and drag origin are carried in the state.
-/

/-- A point in the plane, src/types.ts Point. -/
structure Point where
  x : ℝ
  y : ℝ

/-- A drawing layer, src/types.ts Layer. -/
structure Layer where
  id : String
  name : String
  color : String
  visible : Bool
  locked : Bool
deriving DecidableEq

/-- Variant payload of an entity; the field named end in the source is
called stop here because end is a Lean keyword. src/types.ts. -/
inductive EntityGeom where
  | line (start stop : Point)
  | rect (x y width height : ℝ)
  | circle (cx cy r : ℝ)
  | text (x y : ℝ) (content : String) (fontSize : ℝ)

/-- A drawable entity: common attributes plus the variant payload.
src/types.ts BaseEntity and the Entity union. -/
structure Entity where
  id : String
  layerId : String
  color : Option String := none
  selected : Bool := false
  geom : EntityGeom

/-- Pan offset and zoom factor, src/types.ts ViewState. -/
structure ViewState where
  x : ℝ
  y : ℝ
  zoom : ℝ

/-- The tool palette, src/types.ts ToolType. -/
inductive ToolType where
  | SELECT
  | LINE
  | RECTANGLE
  | CIRCLE
  | ARC
  | TEXT
  | PAN
deriving DecidableEq

/-- Euclidean distance, src/utils/math.ts distance. -/
noncomputable def distance (p1 p2 : Point) : ℝ :=
  Real.sqrt ((p2.x - p1.x) ^ 2 + (p2.y - p1.y) ^ 2)

/-- Screen-to-world transform, src/utils/math.ts screenToWorld. -/
noncomputable def screenToWorld (screenX screenY viewX viewY zoom : ℝ) : Point :=
  ⟨(screenX - viewX) / zoom, (screenY - viewY) / zoom⟩

/-- World-to-screen transform, src/utils/math.ts worldToScreen. -/
def worldToScreen (worldX worldY viewX viewY zoom : ℝ) : Point :=
  ⟨worldX * zoom + viewX, worldY * zoom + viewY⟩

/-- One output line of the serialized DXF document: either literal text from
the template or an interpolated numeric value. -/
inductive DXFLine where
  | lit (s : String)
  | num (v : ℝ)

/-- The fixed document prologue emitted before any entity record,
src/utils/math.ts createDXFContent first line. -/
def dxfPrologue : List DXFLine :=
  [.lit "0", .lit "SECTION", .lit "2", .lit "HEADER", .lit "0", .lit "ENDSEC",
   .lit "0", .lit "SECTION", .lit "2", .lit "ENTITIES"]

/-- The fixed document trailer, src/utils/math.ts createDXFContent last line. -/
def dxfTrailer : List DXFLine :=
  [.lit "0", .lit "ENDSEC", .lit "0", .lit "EOF"]

/-- The record block one entity contributes to the ENTITIES section,
src/utils/math.ts createDXFContent forEach body. Text entities contribute
nothing (no branch in the source). -/
def dxfRecord (ent : Entity) : List DXFLine :=
  match ent.geom with
  | .line s e =>
      [.lit "0", .lit "LINE", .lit "8", .lit ent.layerId,
       .lit "10", .num s.x, .lit "20", .num (-s.y),
       .lit "11", .num e.x, .lit "21", .num (-e.y)]
  | .circle cx cy r =>
      [.lit "0", .lit "CIRCLE", .lit "8", .lit ent.layerId,
       .lit "10", .num cx, .lit "20", .num (-cy), .lit "40", .num r]
  | .rect x y w h =>
      [.lit "0", .lit "LWPOLYLINE", .lit "8", .lit ent.layerId,
       .lit "90", .lit "4", .lit "70", .lit "1",
       .lit "10", .num x, .lit "20", .num (-y),
       .lit "10", .num (x + w), .lit "20", .num (-y),
       .lit "10", .num (x + w), .lit "20", .num (-y + -h),
       .lit "10", .num x, .lit "20", .num (-y + -h)]
  | .text _ _ _ _ => []

/-- The full serialized document, src/utils/math.ts createDXFContent. -/
def createDXFContent (entities : List Entity) : List DXFLine :=
  dxfPrologue ++ entities.flatMap dxfRecord ++ dxfTrailer

open Classical

/-- Visibility of the layer an entity references: the lookup
layers.find(l => l.id === ent.layerId)?.visible of src/App.tsx line 142,
false when the layer is missing. -/
def layerVisible (layers : List Layer) (lid : String) : Bool :=
  match layers.find? (fun l => l.id == lid) with
  | some l => l.visible
  | none => false

/-- Per-variant hit test against a world point at the given zoom,
src/App.tsx lines 143-161 (the body of the find callback after the layer
check): circle ring test, clamped point-to-segment test with an explicit
zero-length branch, un-normalized rectangle bounds test, and always-miss
for text. -/
noncomputable def entityHit (worldPos : Point) (zoom : ℝ) (ent : Entity) : Prop :=
  let tolerance := 5 / zoom
  match ent.geom with
  | .circle cx cy r =>
      |distance worldPos ⟨cx, cy⟩ - r| < tolerance
  | .line s e =>
      let l2 := distance s e ^ 2
      if l2 = 0 then
        distance worldPos s < tolerance
      else
        let t := ((worldPos.x - s.x) * (e.x - s.x) + (worldPos.y - s.y) * (e.y - s.y)) / l2
        let tClamped := max 0 (min 1 t)
        distance worldPos ⟨s.x + tClamped * (e.x - s.x), s.y + tClamped * (e.y - s.y)⟩
          < tolerance
  | .rect x y w h =>
      x ≤ worldPos.x ∧ worldPos.x ≤ x + w ∧ y ≤ worldPos.y ∧ worldPos.y ≤ y + h
  | .text _ _ _ _ => False

/-- The full per-entity predicate of the find callback, src/App.tsx lines
141-162: owning layer present and visible, then the variant test. -/
noncomputable def entPasses (layers : List Layer) (worldPos : Point) (zoom : ℝ)
    (ent : Entity) : Prop :=
  layerVisible layers ent.layerId = true ∧ entityHit worldPos zoom ent

/-- First element of a list satisfying entPasses, the find of src/App.tsx
line 141 applied to the already-reversed list. -/
noncomputable def firstHit (layers : List Layer) (worldPos : Point) (zoom : ℝ) :
    List Entity → Option Entity
  | [] => none
  | ent :: rest =>
      if entPasses layers worldPos zoom ent then some ent
      else firstHit layers worldPos zoom rest

/-- The select-click hit test, src/App.tsx line 141:
entities.slice().reverse().find(...). -/
noncomputable def hitTest (entities : List Entity) (layers : List Layer)
    (worldPos : Point) (zoom : ℝ) : Option Entity :=
  firstHit layers worldPos zoom entities.reverse

/-- Membership in the normalized bounds of a possibly negative-size
rectangle. Modelled from the spec: the spec requires hit-testing to
normalize negative width/height before the bounds test. -/
def inNormalizedRect (p : Point) (x y w h : ℝ) : Prop :=
  min x (x + w) ≤ p.x ∧ p.x ≤ max x (x + w) ∧
  min y (y + h) ≤ p.y ∧ p.y ≤ max y (y + h)

/-- C4: for every zoom z > 0, pan offset and screen point, worldToScreen
undoes screenToWorld with the same pan and zoom (and conversely): the two
coordinate transforms are mutually inverse. -/
theorem screen_world_roundtrip (sx sy wx wy px py z : ℝ) (hz : 0 < z) :
    worldToScreen (screenToWorld sx sy px py z).x (screenToWorld sx sy px py z).y
      px py z = ⟨sx, sy⟩ ∧
    screenToWorld (worldToScreen wx wy px py z).x (worldToScreen wx wy px py z).y
      px py z = ⟨wx, wy⟩ := by
  have hz0 : z ≠ 0 := ne_of_gt hz
  constructor
  · simp only [screenToWorld, worldToScreen]
    congr 1 <;> field_simp
  · simp only [screenToWorld, worldToScreen]
    congr 1 <;> field_simp

/-- Witness for C4 at zoom 2, pan (7, -3), screen point (11, 5), world
point (4, 9). -/
theorem screen_world_roundtrip_witness :
    worldToScreen (screenToWorld 11 5 7 (-3) 2).x (screenToWorld 11 5 7 (-3) 2).y
      7 (-3) 2 = ⟨11, 5⟩ ∧
    screenToWorld (worldToScreen 4 9 7 (-3) 2).x (worldToScreen 4 9 7 (-3) 2).y
      7 (-3) 2 = ⟨4, 9⟩ :=
  screen_world_roundtrip 11 5 4 9 7 (-3) 2 (by norm_num)

/-- C6: a circle entity serializes to a center+radius record tagged with
its owning layer identifier, with the center Y ordinate negated and the
radius not negated; the concrete circle cx=5, cy=5, r=2 on layer 0 yields
the group/value lines 10, 5, 20, -5, 40, 2 inside the entities section. -/
theorem dxf_circle_record (i lid : String) (col : Option String) (sel : Bool)
    (cx cy r : ℝ) :
    dxfRecord { id := i, layerId := lid, color := col, selected := sel,
                geom := .circle cx cy r } =
      [.lit "0", .lit "CIRCLE", .lit "8", .lit lid,
       .lit "10", .num cx, .lit "20", .num (-cy), .lit "40", .num r] ∧
    createDXFContent [{ id := i, layerId := "0", color := col, selected := sel,
                        geom := .circle 5 5 2 }] =
      dxfPrologue ++
        [.lit "0", .lit "CIRCLE", .lit "8", .lit "0",
         .lit "10", .num 5, .lit "20", .num (-5), .lit "40", .num 2] ++
      dxfTrailer := by
  constructor
  · rfl
  · simp only [createDXFContent, List.flatMap_cons, List.flatMap_nil, dxfRecord,
      List.append_nil]

/-- C7: the serialized document always begins with the fixed prologue and
ends with the fixed trailer; the empty entity list yields the prologue
immediately followed by the trailer. -/
theorem dxf_prologue_trailer (entities : List Entity) :
    (∃ middle, createDXFContent entities = dxfPrologue ++ middle ++ dxfTrailer) ∧
    createDXFContent [] = dxfPrologue ++ dxfTrailer := by
  refine ⟨⟨entities.flatMap dxfRecord, rfl⟩, ?_⟩
  simp [createDXFContent]

/-- Distance from a point to itself is zero. -/
theorem distance_self (p : Point) : distance p p = 0 := by
  simp [distance]

/-- Distance between two points on a common horizontal line. -/
theorem distance_same_y (a b y : ℝ) : distance ⟨a, y⟩ ⟨b, y⟩ = |b - a| := by
  simp [distance, Real.sqrt_sq_eq_abs]

/-- Layer and entities used to exercise the hit test on concrete input. -/
def hitLayerA : Layer := ⟨"0", "0 (Default)", "#ffffff", true, false⟩

/-- An invisible layer used to exercise the layer-visibility skip. -/
def hiddenLayerB : Layer := ⟨"1", "Hidden", "#ffffff", false, false⟩

/-- A degenerate circle through the origin, hit by a click at the origin. -/
def circEntA : Entity := ⟨"a", "0", none, false, .circle 0 0 0⟩

/-- A second degenerate circle overlapping the first. -/
def circEntB : Entity := ⟨"b", "0", none, false, .circle 0 0 0⟩

/-- A degenerate circle owned by the invisible layer. -/
def circEntHidden : Entity := ⟨"h", "1", none, false, .circle 0 0 0⟩

/-- A rectangle with negative width and height, as produced by dragging
up-left from anchor (10, 10). -/
def badRect : Entity := ⟨"r1", "0", none, false, .rect 10 10 (-5) (-5)⟩

/-- The find over the reversed list yields nothing when no entity passes. -/
theorem firstHit_eq_none (layers : List Layer) (p : Point) (z : ℝ) :
    ∀ l : List Entity, (∀ e ∈ l, ¬ entPasses layers p z e) →
      firstHit layers p z l = none := by
  intro l
  induction l with
  | nil => intro _; rfl
  | cons e rest ih =>
      intro hall
      simp only [firstHit]
      rw [if_neg (hall e (by simp))]
      exact ih fun e2 he2 => hall e2 (by simp [he2])

/-- C2: the select-click hit test yields no match on the empty entity list,
returns a just-appended (most recently inserted) entity whenever its
predicate passes, ignores an appended entity whose predicate fails, the
predicate always fails for an entity whose owning layer is missing or
invisible, and a list with no passing entity yields no match. -/
theorem hitTest_topmost (layers : List Layer) (p : Point) (z : ℝ)
    (es : List Entity) (e : Entity) :
    hitTest [] layers p z = none ∧
    (entPasses layers p z e → hitTest (es ++ [e]) layers p z = some e) ∧
    (¬ entPasses layers p z e → hitTest (es ++ [e]) layers p z = hitTest es layers p z) ∧
    (layerVisible layers e.layerId ≠ true → ¬ entPasses layers p z e) ∧
    ((∀ e2 ∈ es, ¬ entPasses layers p z e2) → hitTest es layers p z = none) := by
  have hrev : (es ++ [e]).reverse = e :: es.reverse := by simp
  refine ⟨rfl, ?_, ?_, ?_, ?_⟩
  · intro hp
    unfold hitTest
    rw [hrev]
    simp only [firstHit]
    rw [if_pos hp]
  · intro hn
    unfold hitTest
    rw [hrev]
    simp only [firstHit]
    rw [if_neg hn]
  · rintro hv ⟨h1, _⟩
    exact hv h1
  · intro hall
    exact firstHit_eq_none layers p z es.reverse fun e2 he2 =>
      hall e2 (List.mem_reverse.mp he2)

/-- Witness for C2: two overlapping passing circles resolve to the later
one, the empty list yields no match, and an entity on an invisible layer is
skipped. -/
theorem hitTest_topmost_witness :
    hitTest [circEntA, circEntB] [hitLayerA] ⟨0, 0⟩ 1 = some circEntB ∧
    hitTest [] [hitLayerA] ⟨0, 0⟩ 1 = none ∧
    hitTest [circEntHidden] [hitLayerA, hiddenLayerB] ⟨0, 0⟩ 1 = none := by
  have hB : entPasses [hitLayerA] ⟨0, 0⟩ 1 circEntB := by
    refine ⟨rfl, ?_⟩
    show |distance ⟨0, 0⟩ ⟨0, 0⟩ - 0| < 5 / 1
    rw [distance_self]
    norm_num
  have h1 := hitTest_topmost [hitLayerA] ⟨0, 0⟩ 1 [circEntA] circEntB
  have h2 := hitTest_topmost [hitLayerA, hiddenLayerB] ⟨0, 0⟩ 1 [] circEntHidden
  refine ⟨h1.2.1 hB, h1.1, ?_⟩
  have hskip : ¬ entPasses [hitLayerA, hiddenLayerB] ⟨0, 0⟩ 1 circEntHidden :=
    h2.2.2.2.1 (by decide)
  exact (h2.2.2.1 hskip).trans h2.1

/-- C5: a circle is hit exactly when the distance from the click to the
center differs from the radius by strictly less than the 5 / zoom
tolerance; in particular a click at distance radius plus or minus half the
tolerance hits, a click at distance radius plus twice the tolerance misses,
and a click deeper inside the circle than the tolerance misses. -/
theorem circle_ring_hit (i lid : String) (col : Option String) (sel : Bool)
    (cx cy r zoom : ℝ) (p : Point) (hz : 0 < zoom) :
    (entityHit p zoom ⟨i, lid, col, sel, .circle cx cy r⟩ ↔
      |distance p ⟨cx, cy⟩ - r| < 5 / zoom) ∧
    (distance p ⟨cx, cy⟩ = r + (5 / zoom) / 2 →
      entityHit p zoom ⟨i, lid, col, sel, .circle cx cy r⟩) ∧
    (distance p ⟨cx, cy⟩ = r - (5 / zoom) / 2 →
      entityHit p zoom ⟨i, lid, col, sel, .circle cx cy r⟩) ∧
    (distance p ⟨cx, cy⟩ = r + 2 * (5 / zoom) →
      ¬ entityHit p zoom ⟨i, lid, col, sel, .circle cx cy r⟩) ∧
    (distance p ⟨cx, cy⟩ < r - 5 / zoom →
      ¬ entityHit p zoom ⟨i, lid, col, sel, .circle cx cy r⟩) := by
  have ht : 0 < 5 / zoom := by positivity
  have hiff : entityHit p zoom ⟨i, lid, col, sel, .circle cx cy r⟩ ↔
      |distance p ⟨cx, cy⟩ - r| < 5 / zoom := Iff.rfl
  refine ⟨hiff, ?_, ?_, ?_, ?_⟩
  · intro hd
    rw [hiff, hd, show r + 5 / zoom / 2 - r = 5 / zoom / 2 by ring,
      abs_of_nonneg (by linarith)]
    linarith
  · intro hd
    rw [hiff, hd, show r - 5 / zoom / 2 - r = -(5 / zoom / 2) by ring, abs_neg,
      abs_of_nonneg (by linarith)]
    linarith
  · intro hd
    rw [hiff, hd, show r + 2 * (5 / zoom) - r = 2 * (5 / zoom) by ring,
      abs_of_nonneg (by linarith)]
    linarith
  · intro hd
    rw [hiff]
    intro habs
    have := (abs_lt.mp habs).1
    linarith

/-- Witness for C5 on the circle of radius 5 at the origin at zoom 1
(tolerance 5): a click at distance 7.5 hits, a click at distance 15 misses. -/
theorem circle_ring_hit_witness :
    entityHit ⟨15 / 2, 0⟩ 1 ⟨"c", "0", none, false, .circle 0 0 5⟩ ∧
    ¬ entityHit ⟨15, 0⟩ 1 ⟨"c", "0", none, false, .circle 0 0 5⟩ := by
  have h1 := circle_ring_hit "c" "0" none false 0 0 5 1 ⟨15 / 2, 0⟩ (by norm_num)
  have h2 := circle_ring_hit "c" "0" none false 0 0 5 1 ⟨15, 0⟩ (by norm_num)
  constructor
  · refine h1.2.1 ?_
    rw [distance_same_y, show (0 : ℝ) - 15 / 2 = -(15 / 2) by ring, abs_neg,
      abs_of_nonneg (by norm_num)]
    norm_num
  · refine h2.2.2.2.1 ?_
    rw [distance_same_y, show (0 : ℝ) - 15 = -15 by ring, abs_neg,
      abs_of_nonneg (by norm_num)]
    norm_num

/-- C9: hit-testing a line whose start equals its end takes the explicit
zero-squared-length branch, so the test degenerates to the point-to-point
distance to the start point compared against the tolerance. -/
theorem line_zero_length_hit (i lid : String) (col : Option String) (sel : Bool)
    (s p : Point) (zoom : ℝ) :
    entityHit p zoom ⟨i, lid, col, sel, .line s s⟩ ↔ distance p s < 5 / zoom := by
  simp [entityHit, distance_self]

/-- Witness for C9: the zero-length line at the origin is hit from
distance 1 at zoom 1. -/
theorem line_zero_length_hit_witness :
    entityHit ⟨1, 0⟩ 1 ⟨"l", "0", none, false, .line ⟨0, 0⟩ ⟨0, 0⟩⟩ := by
  refine (line_zero_length_hit "l" "0" none false ⟨0, 0⟩ ⟨1, 0⟩ 1).mpr ?_
  rw [distance_same_y, show (0 : ℝ) - 1 = -1 by ring, abs_neg,
    abs_of_nonneg (by norm_num)]
  norm_num

/-- C1 (code-bug evidence): the point (8, 8) lies inside the normalized
bounds of the rectangle anchored at (10, 10) with width -5 and height -5,
yet the rectangle hit test, which never normalizes the signed size, rejects
it, and a select-click there over a visible layer finds nothing. -/
theorem rect_hit_skips_normalization :
    inNormalizedRect ⟨8, 8⟩ 10 10 (-5) (-5) ∧
    ¬ entityHit ⟨8, 8⟩ 1 badRect ∧
    hitTest [badRect] [hitLayerA] ⟨8, 8⟩ 1 = none := by
  have hmiss : ¬ entityHit ⟨8, 8⟩ 1 badRect := by
    intro h
    have h1 : (10 : ℝ) ≤ 8 := h.1
    norm_num at h1
  refine ⟨?_, hmiss, ?_⟩
  · refine ⟨?_, ?_, ?_, ?_⟩ <;> norm_num [min_def, max_def]
  · unfold hitTest
    simp only [List.reverse_cons, List.reverse_nil, List.nil_append, firstHit]
    rw [if_neg fun hp => hmiss hp.2]

/-- The three seed layers, src/App.tsx INITIAL_LAYERS. -/
def INITIAL_LAYERS : List Layer :=
  [⟨"0", "0 (Default)", "#ffffff", true, false⟩,
   ⟨"1", "Construction", "#38bdf8", true, false⟩,
   ⟨"2", "Dimensions", "#fbbf24", true, false⟩]

/-- The initial camera, src/App.tsx INITIAL_VIEW. -/
def INITIAL_VIEW : ViewState := ⟨0, 0, 1⟩

/-- The mutable application state held by the App component,
src/App.tsx lines 90-105 (the useState hooks relevant to the core). -/
structure AppState where
  entities : List Entity
  layers : List Layer
  activeLayerId : String
  view : ViewState
  tool : ToolType
  selectedIds : List String
  previewEntity : Option Entity
  isDrawing : Bool
  startPoint : Option Point
  dragStart : Option Point
  mousePos : Point
  commandHistory : List String

/-- The state at mount time, from the useState initializers of
src/App.tsx. -/
def initialState : AppState :=
  { entities := [], layers := INITIAL_LAYERS, activeLayerId := "0",
    view := INITIAL_VIEW, tool := ToolType.SELECT, selectedIds := [],
    previewEntity := none, isDrawing := false, startPoint := none,
    dragStart := none, mousePos := ⟨0, 0⟩,
    commandHistory := ["Welcome to Gemini CAD Studio."] }

/-- Command-log append keeping the last four prior messages,
src/App.tsx addToHistory (prev.slice(-4) concatenated with msg). -/
def addToHistory (prev : List String) (msg : String) : List String :=
  prev.drop (prev.length - 4) ++ [msg]

/-- The display name of an entity variant, the type tag of the source
union, used in the Created message. -/
def entTypeName : EntityGeom → String
  | .line _ _ => "line"
  | .rect _ _ _ _ => "rect"
  | .circle _ _ _ => "circle"
  | .text _ _ _ _ => "text"

/-- The active layer with fallback to the first layer,
src/App.tsx getActiveLayer; none models the undefined access that would
throw when the layer list is empty and the id dangles. -/
def getActiveLayer (layers : List Layer) (activeLayerId : String) : Option Layer :=
  (layers.find? (fun l => l.id == activeLayerId)).orElse fun _ => layers.head?

/-- The pointer-down handler for the primary button over a mounted canvas,
src/App.tsx handleMouseDown: pan-drag start, select-click hit test, and the
two-click draw protocol (anchor a zero-size preview, or commit the preview).
none models the exception thrown while building the preview when
getActiveLayer yields no layer. -/
noncomputable def handleMouseDown (st : AppState) (sx sy : ℝ) (newId : String) :
    Option AppState :=
  if st.tool = ToolType.PAN then
    some { st with dragStart := some ⟨sx, sy⟩ }
  else
    let worldPos := screenToWorld sx sy st.view.x st.view.y st.view.zoom
    if st.tool = ToolType.SELECT then
      match hitTest st.entities st.layers worldPos st.view.zoom with
      | some hit => some { st with selectedIds := [hit.id] }
      | none => some { st with selectedIds := [] }
    else if st.isDrawing = false then
      match getActiveLayer st.layers st.activeLayerId with
      | none => none
      | some activeLayer =>
        let newEnt : Option Entity :=
          if st.tool = ToolType.LINE then
            some { id := newId, layerId := st.activeLayerId,
                   color := some activeLayer.color, selected := false,
                   geom := .line worldPos worldPos }
          else if st.tool = ToolType.RECTANGLE then
            some { id := newId, layerId := st.activeLayerId,
                   color := some activeLayer.color, selected := false,
                   geom := .rect worldPos.x worldPos.y 0 0 }
          else if st.tool = ToolType.CIRCLE then
            some { id := newId, layerId := st.activeLayerId,
                   color := some activeLayer.color, selected := false,
                   geom := .circle worldPos.x worldPos.y 0 }
          else none
        some { st with isDrawing := true
                       startPoint := some worldPos
                       previewEntity := newEnt }
    else
      match st.previewEntity with
      | some pe =>
          some { st with entities := st.entities ++ [pe]
                         previewEntity := none
                         commandHistory :=
                           addToHistory st.commandHistory
                             ("Created " ++ entTypeName pe.geom)
                         isDrawing := false
                         startPoint := none }
      | none => some { st with isDrawing := false, startPoint := none }

/-- The pointer-move handler, src/App.tsx handleMouseMove: track the status
position, accumulate an active pan drag into the pan offset, or reshape the
preview entity from the anchor and the current world point. -/
noncomputable def handleMouseMove (st : AppState) (sx sy : ℝ) : AppState :=
  let worldPos := screenToWorld sx sy st.view.x st.view.y st.view.zoom
  let st1 := { st with mousePos := worldPos }
  match st1.dragStart with
  | some d =>
      { st1 with
        view := { st1.view with x := st1.view.x + (sx - d.x)
                                y := st1.view.y + (sy - d.y) }
        dragStart := some ⟨sx, sy⟩ }
  | none =>
      if st1.isDrawing then
        match st1.startPoint, st1.previewEntity with
        | some sp, some pe =>
            match pe.geom with
            | .line s _ =>
                { st1 with previewEntity := some { pe with geom := .line s worldPos } }
            | .rect x y _ _ =>
                let pe1 := { pe with
                             geom := .rect x y (worldPos.x - sp.x) (worldPos.y - sp.y) }
                { st1 with previewEntity := some pe1 }
            | .circle cx cy _ =>
                let pe1 := { pe with geom := .circle cx cy (distance sp worldPos) }
                { st1 with previewEntity := some pe1 }
            | .text _ _ _ _ => st1
        | _, _ => st1
      else st1

/-- The pointer-up handler, src/App.tsx handleMouseUp: end a pan drag. -/
def handleMouseUp (st : AppState) : AppState :=
  if st.dragStart.isSome then { st with dragStart := none } else st

/-- The wheel handler, src/App.tsx handleWheel: scale the zoom by 1.1 up or
down by scroll direction, leaving the pan offset untouched. -/
noncomputable def handleWheel (st : AppState) (deltaY : ℝ) : AppState :=
  let scaleFactor : ℝ := 1.1
  let newZoom := if deltaY < 0 then st.view.zoom * scaleFactor
                 else st.view.zoom / scaleFactor
  { st with view := { st.view with zoom := newZoom } }

/-- The delete action, src/App.tsx handleDelete: with a nonempty selection,
drop the selected entities and clear the selection. -/
def handleDelete (st : AppState) : AppState :=
  if st.selectedIds.length = 0 then st
  else
    { st with entities := st.entities.filter (fun e => !(st.selectedIds.contains e.id))
              selectedIds := []
              commandHistory := addToHistory st.commandHistory "Deleted objects." }

/-- The Escape key action, src/App.tsx handleKey: abort drawing, drop the
preview, clear the selection, return to the Select tool. -/
def handleEscape (st : AppState) : AppState :=
  { st with isDrawing := false
            previewEntity := none
            selectedIds := []
            tool := ToolType.SELECT }

/-- Tool selection from the toolbar, src/App.tsx setTool calls. -/
def setToolOp (st : AppState) (t : ToolType) : AppState := { st with tool := t }

/-- Active-layer selection from the layer panel, src/App.tsx. -/
def setActiveLayerOp (st : AppState) (lid : String) : AppState :=
  { st with activeLayerId := lid }

/-- The New-layer button, src/App.tsx line 475. -/
def addLayerOp (st : AppState) (newId : String) : AppState :=
  { st with layers := st.layers ++
      [⟨newId, "Layer " ++ toString st.layers.length, "#ffffff", true, false⟩] }

/-- The layer visibility toggle, src/App.tsx line 488. -/
def toggleVisibleOp (st : AppState) (lid : String) : AppState :=
  { st with layers := st.layers.map fun pl =>
      if pl.id == lid then { pl with visible := !pl.visible } else pl }

/-- The layer lock toggle, src/App.tsx line 489. -/
def toggleLockOp (st : AppState) (lid : String) : AppState :=
  { st with layers := st.layers.map fun pl =>
      if pl.id == lid then { pl with locked := !pl.locked } else pl }

/-- Merging a successful generation result, src/App.tsx line 262: append the
produced entities. -/
def aiAppendOp (st : AppState) (newEntities : List Entity) : AppState :=
  { st with entities := st.entities ++ newEntities }

/-- The DXF export action, src/App.tsx handleExportDXF: state-wise it only
logs a message. -/
def exportOp (st : AppState) : AppState :=
  { st with commandHistory := addToHistory st.commandHistory "System: DXF Exported." }

/-- The command-line input, src/App.tsx lines 450-458: upcase, map L/C/R to
tools, otherwise log an unknown-command message. -/
def commandOp (st : AppState) (val : String) : AppState :=
  let v := val.toUpper
  if v = "L" then { st with tool := ToolType.LINE }
  else if v = "C" then { st with tool := ToolType.CIRCLE }
  else if v = "R" then { st with tool := ToolType.RECTANGLE }
  else { st with commandHistory := addToHistory st.commandHistory ("Unknown command: " ++ v) }

/-- One user-visible core operation applied to the application state. -/
inductive Step : AppState → AppState → Prop where
  | mouseDown (s : AppState) (sx sy : ℝ) (newId : String) (s' : AppState) :
      handleMouseDown s sx sy newId = some s' → Step s s'
  | mouseMove (s : AppState) (sx sy : ℝ) : Step s (handleMouseMove s sx sy)
  | mouseUp (s : AppState) : Step s (handleMouseUp s)
  | wheel (s : AppState) (deltaY : ℝ) : Step s (handleWheel s deltaY)
  | delete (s : AppState) : Step s (handleDelete s)
  | escape (s : AppState) : Step s (handleEscape s)
  | setTool (s : AppState) (t : ToolType) : Step s (setToolOp s t)
  | setActiveLayer (s : AppState) (lid : String) : Step s (setActiveLayerOp s lid)
  | addLayer (s : AppState) (newId : String) : Step s (addLayerOp s newId)
  | toggleVisible (s : AppState) (lid : String) : Step s (toggleVisibleOp s lid)
  | toggleLock (s : AppState) (lid : String) : Step s (toggleLockOp s lid)
  | aiAppend (s : AppState) (es : List Entity) : Step s (aiAppendOp s es)
  | exportDXF (s : AppState) : Step s (exportOp s)
  | command (s : AppState) (val : String) : Step s (commandOp s val)

/-- States reachable from the mount state by core operations. -/
def Reachable (s : AppState) : Prop :=
  Relation.ReflTransGen Step initialState s

/-- C8: a wheel event leaves the pan offset and the entities unchanged and
multiplies the zoom by 1.1 on upward scroll (negative delta) or divides it
by 1.1 otherwise; the new zoom is exactly that product or quotient, with no
clamping to a minimum or maximum. -/
theorem wheel_zoom (st : AppState) (deltaY : ℝ) :
    (handleWheel st deltaY).view.x = st.view.x ∧
    (handleWheel st deltaY).view.y = st.view.y ∧
    (handleWheel st deltaY).entities = st.entities ∧
    (deltaY < 0 → (handleWheel st deltaY).view.zoom = st.view.zoom * 1.1) ∧
    (¬ deltaY < 0 → (handleWheel st deltaY).view.zoom = st.view.zoom / 1.1) := by
  refine ⟨rfl, rfl, rfl, ?_, ?_⟩
  · intro h
    show (if deltaY < 0 then st.view.zoom * 1.1 else st.view.zoom / 1.1) = _
    rw [if_pos h]
  · intro h
    show (if deltaY < 0 then st.view.zoom * 1.1 else st.view.zoom / 1.1) = _
    rw [if_neg h]

/-- Witness for C8 at the initial state: scrolling up multiplies the zoom
by 1.1, scrolling down divides it, and the pan offset stays put. -/
theorem wheel_zoom_witness :
    (handleWheel initialState (-1)).view.zoom = initialState.view.zoom * 1.1 ∧
    (handleWheel initialState 1).view.zoom = initialState.view.zoom / 1.1 ∧
    (handleWheel initialState (-1)).view.x = initialState.view.x := by
  refine ⟨(wheel_zoom initialState (-1)).2.2.2.1 (by norm_num),
    (wheel_zoom initialState 1).2.2.2.2 (by norm_num),
    (wheel_zoom initialState (-1)).1⟩

/-- A select-mode pointer-down replaces the selection with the hit result:
the hit identifier as a singleton, or the empty selection on a miss. -/
theorem handleMouseDown_select_eq (s : AppState) (sx sy : ℝ) (nid : String)
    (w : Point)
    (htool : s.tool = ToolType.SELECT)
    (hw : screenToWorld sx sy s.view.x s.view.y s.view.zoom = w) :
    handleMouseDown s sx sy nid =
      some { s with selectedIds :=
        (hitTest s.entities s.layers w s.view.zoom).elim [] fun hit => [hit.id] } := by
  simp only [handleMouseDown, htool, hw]
  cases hitTest s.entities s.layers w s.view.zoom with
  | none => rfl
  | some hit => rfl

/-- A rectangle-mode pointer-down while idle anchors a zero-size preview
rectangle at the world point, colored from the active layer. -/
theorem handleMouseDown_rect_start (s : AppState) (sx sy : ℝ) (nid : String)
    (al : Layer) (wx wy : ℝ)
    (htool : s.tool = ToolType.RECTANGLE)
    (hd : s.isDrawing = false)
    (hal : getActiveLayer s.layers s.activeLayerId = some al)
    (hw : screenToWorld sx sy s.view.x s.view.y s.view.zoom = ⟨wx, wy⟩) :
    handleMouseDown s sx sy nid =
      some { s with isDrawing := true
                    startPoint := some ⟨wx, wy⟩
                    previewEntity := some { id := nid
                                            layerId := s.activeLayerId
                                            color := some al.color
                                            selected := false
                                            geom := .rect wx wy 0 0 } } := by
  simp only [handleMouseDown, htool, hd, hal, hw]
  rfl

/-- A pointer-down in a drawing tool while drawing commits the preview
entity by appending it to the entity list and returns to the idle state. -/
theorem handleMouseDown_commit (s : AppState) (sx sy : ℝ) (nid : String)
    (pe : Entity)
    (ht1 : s.tool ≠ ToolType.PAN) (ht2 : s.tool ≠ ToolType.SELECT)
    (hd : s.isDrawing = true) (hpe : s.previewEntity = some pe) :
    handleMouseDown s sx sy nid =
      some { s with entities := s.entities ++ [pe]
                    previewEntity := none
                    commandHistory := addToHistory s.commandHistory
                      ("Created " ++ entTypeName pe.geom)
                    isDrawing := false
                    startPoint := none } := by
  simp only [handleMouseDown, hd, hpe, if_neg (show ¬true = false by decide)]
  split
  · rename_i hq
    exact absurd hq ht1
  · rfl

/-- A pointer-move during a rectangle draw reshapes the preview: its signed
size becomes the current world point minus the anchor. -/
theorem handleMouseMove_rect_preview (s : AppState) (sx sy : ℝ)
    (spx spy : ℝ) (pe : Entity) (x y w h wx wy : ℝ)
    (hdrag : s.dragStart = none) (hd : s.isDrawing = true)
    (hsp : s.startPoint = some ⟨spx, spy⟩) (hpe : s.previewEntity = some pe)
    (hgeom : pe.geom = .rect x y w h)
    (hw : screenToWorld sx sy s.view.x s.view.y s.view.zoom = ⟨wx, wy⟩) :
    handleMouseMove s sx sy =
      { s with mousePos := ⟨wx, wy⟩
               previewEntity := some { pe with
                 geom := .rect x y (wx - spx) (wy - spy) } } := by
  simp only [handleMouseMove, hdrag, hd, hsp, hpe, hgeom, hw]
  rfl

/-- C3: with the Rectangle tool active and no drawing or pan in progress,
pointer-down at world (10, 10), pointer-move to world (50, 40) and a second
pointer-down commit exactly one rectangle entity x=10 y=10 width=40
height=30 owned by the active layer, appended at the end of the entity
list, with the machine back in the idle state and the preview cleared. -/
theorem rect_two_click_commit (st : AppState) (newId newId2 : String)
    (sx1 sy1 sx2 sy2 : ℝ) (al : Layer)
    (htool : st.tool = ToolType.RECTANGLE)
    (hdraw : st.isDrawing = false)
    (hdrag : st.dragStart = none)
    (hal : getActiveLayer st.layers st.activeLayerId = some al)
    (h1 : screenToWorld sx1 sy1 st.view.x st.view.y st.view.zoom = ⟨10, 10⟩)
    (h2 : screenToWorld sx2 sy2 st.view.x st.view.y st.view.zoom = ⟨50, 40⟩) :
    ∃ s1 s2,
      handleMouseDown st sx1 sy1 newId = some s1 ∧
      handleMouseDown (handleMouseMove s1 sx2 sy2) sx2 sy2 newId2 = some s2 ∧
      s2.entities = st.entities ++
        [{ id := newId, layerId := st.activeLayerId, color := some al.color,
           selected := false, geom := .rect 10 10 40 30 }] ∧
      s2.isDrawing = false ∧ s2.previewEntity = none ∧ s2.startPoint = none := by
  have e1 := handleMouseDown_rect_start st sx1 sy1 newId al 10 10 htool hdraw hal h1
  have e2 := handleMouseMove_rect_preview
    { st with isDrawing := true
              startPoint := some ⟨10, 10⟩
              previewEntity := some { id := newId
                                      layerId := st.activeLayerId
                                      color := some al.color
                                      selected := false
                                      geom := .rect 10 10 0 0 } }
    sx2 sy2 10 10
    { id := newId, layerId := st.activeLayerId, color := some al.color,
      selected := false, geom := .rect 10 10 0 0 }
    10 10 0 0 50 40 hdrag rfl rfl rfl rfl h2
  have e3 := handleMouseDown_commit
    { st with isDrawing := true
              startPoint := some ⟨10, 10⟩
              previewEntity := some { id := newId
                                      layerId := st.activeLayerId
                                      color := some al.color
                                      selected := false
                                      geom := .rect 10 10 (50 - 10) (40 - 10) }
              mousePos := ⟨50, 40⟩ }
    sx2 sy2 newId2
    { id := newId, layerId := st.activeLayerId, color := some al.color,
      selected := false, geom := .rect 10 10 (50 - 10) (40 - 10) }
    (by rw [show ({ st with isDrawing := true
                            startPoint := some (⟨10, 10⟩ : Point)
                            previewEntity := some { id := newId
                                                    layerId := st.activeLayerId
                                                    color := some al.color
                                                    selected := false
                                                    geom := .rect 10 10 (50 - 10) (40 - 10) }
                            mousePos := (⟨50, 40⟩ : Point) } : AppState).tool = st.tool
        from rfl, htool]
        decide)
    (by rw [show ({ st with isDrawing := true
                            startPoint := some (⟨10, 10⟩ : Point)
                            previewEntity := some { id := newId
                                                    layerId := st.activeLayerId
                                                    color := some al.color
                                                    selected := false
                                                    geom := .rect 10 10 (50 - 10) (40 - 10) }
                            mousePos := (⟨50, 40⟩ : Point) } : AppState).tool = st.tool
        from rfl, htool]
        decide)
    rfl rfl
  refine ⟨_,
    { st with entities := st.entities ++
                [{ id := newId, layerId := st.activeLayerId, color := some al.color,
                   selected := false, geom := .rect 10 10 (50 - 10) (40 - 10) }]
              isDrawing := false
              startPoint := none
              previewEntity := none
              mousePos := ⟨50, 40⟩
              commandHistory := addToHistory st.commandHistory "Created rect" },
    e1, ?_, ?_, ?_, ?_, ?_⟩
  · rw [show handleMouseMove
        { st with isDrawing := true
                  startPoint := some (⟨10, 10⟩ : Point)
                  previewEntity := some { id := newId
                                          layerId := st.activeLayerId
                                          color := some al.color
                                          selected := false
                                          geom := .rect 10 10 0 0 } }
        sx2 sy2 =
        { st with isDrawing := true
                  startPoint := some (⟨10, 10⟩ : Point)
                  previewEntity := some { id := newId
                                          layerId := st.activeLayerId
                                          color := some al.color
                                          selected := false
                                          geom := .rect 10 10 (50 - 10) (40 - 10) }
                  mousePos := (⟨50, 40⟩ : Point) } from e2]
    exact e3
  · have hent : ({ id := newId
                   layerId := st.activeLayerId
                   color := some al.color
                   selected := false
                   geom := .rect 10 10 (50 - 10) (40 - 10) } : Entity) =
        { id := newId
          layerId := st.activeLayerId
          color := some al.color
          selected := false
          geom := .rect 10 10 40 30 } := by
      norm_num
    show st.entities ++ [_] = st.entities ++ [_]
    rw [hent]
  · rfl
  · rfl
  · rfl

/-- Witness for C3 from the mount state with the Rectangle tool selected:
clicks at screen (10, 10) and (50, 40) under the identity camera commit the
rectangle 10 10 40 30 on layer 0. -/
theorem rect_two_click_commit_witness :
    ∃ s1 s2,
      handleMouseDown { initialState with tool := ToolType.RECTANGLE } 10 10 "e1" =
        some s1 ∧
      handleMouseDown (handleMouseMove s1 50 40) 50 40 "e2" = some s2 ∧
      s2.entities = [{ id := "e1", layerId := "0", color := some "#ffffff",
                       selected := false, geom := .rect 10 10 40 30 }] ∧
      s2.isDrawing = false ∧ s2.previewEntity = none ∧ s2.startPoint = none :=
  rect_two_click_commit { initialState with tool := ToolType.RECTANGLE }
    "e1" "e2" 10 10 50 40 hitLayerA rfl rfl rfl (by decide)
    (by norm_num [screenToWorld, initialState, INITIAL_VIEW])
    (by norm_num [screenToWorld, initialState, INITIAL_VIEW])

/-- A pointer-down can only keep the selection, empty it, or set it to one
identifier. -/
theorem handleMouseDown_selOptions {s : AppState} {sx sy : ℝ} {nid : String}
    {s' : AppState} (h : handleMouseDown s sx sy nid = some s') :
    s'.selectedIds = s.selectedIds ∨ s'.selectedIds = [] ∨
      ∃ i, s'.selectedIds = [i] := by
  simp only [handleMouseDown] at h
  split at h
  · simp only [Option.some.injEq] at h
    subst h
    exact Or.inl rfl
  · split at h
    · split at h
      · simp only [Option.some.injEq] at h
        subst h
        rename_i hit _
        exact Or.inr (Or.inr ⟨hit.id, rfl⟩)
      · simp only [Option.some.injEq] at h
        subst h
        exact Or.inr (Or.inl rfl)
    · split at h
      · split at h
        · exact absurd h (by simp)
        · simp only [Option.some.injEq] at h
          subst h
          exact Or.inl rfl
      · split at h
        · simp only [Option.some.injEq] at h
          subst h
          exact Or.inl rfl
        · simp only [Option.some.injEq] at h
          subst h
          exact Or.inl rfl

/-- A pointer-move never touches the selection. -/
theorem handleMouseMove_sel (s : AppState) (sx sy : ℝ) :
    (handleMouseMove s sx sy).selectedIds = s.selectedIds := by
  simp only [handleMouseMove]
  split
  · rfl
  · split
    · split
      · split <;> rfl
      · rfl
    · rfl

/-- A pointer-up never touches the selection. -/
theorem handleMouseUp_sel (s : AppState) :
    (handleMouseUp s).selectedIds = s.selectedIds := by
  simp only [handleMouseUp]
  split <;> rfl

/-- The delete action always leaves the selection empty: it either clears a
nonempty selection or keeps an already empty one. -/
theorem handleDelete_sel (s : AppState) : (handleDelete s).selectedIds = [] := by
  simp only [handleDelete]
  split
  · rename_i hq
    exact List.length_eq_zero.mp hq
  · rfl

/-- The command line never touches the selection. -/
theorem commandOp_sel (s : AppState) (v : String) :
    (commandOp s v).selectedIds = s.selectedIds := by
  simp only [commandOp]
  split
  · rfl
  · split
    · rfl
    · split <;> rfl

/-- Every core operation preserves the bound of at most one selected
identifier. -/
theorem step_sel_le_one {s s' : AppState} (h : Step s s')
    (hs : s.selectedIds.length ≤ 1) : s'.selectedIds.length ≤ 1 := by
  cases h with
  | mouseDown sx sy nid b hmd =>
      rcases handleMouseDown_selOptions hmd with h1 | h1 | ⟨i, h1⟩ <;> rw [h1]
      · exact hs
      · simp
      · simp
  | mouseMove sx sy =>
      rw [handleMouseMove_sel]
      exact hs
  | mouseUp =>
      rw [handleMouseUp_sel]
      exact hs
  | wheel dy => exact hs
  | delete =>
      rw [handleDelete_sel]
      simp
  | escape => exact Nat.zero_le 1
  | setTool t => exact hs
  | setActiveLayer lid => exact hs
  | addLayer nid => exact hs
  | toggleVisible lid => exact hs
  | toggleLock lid => exact hs
  | aiAppend es => exact hs
  | exportDXF => exact hs
  | command v =>
      rw [commandOp_sel]
      exact hs

/-- C10: in every reachable state the selection holds at most one
identifier; a select-click sets it to exactly the hit identifier or to
empty on a miss, and the delete and escape actions always leave it
empty. -/
theorem selection_at_most_one :
    (∀ s, Reachable s → s.selectedIds.length ≤ 1) ∧
    (∀ (s : AppState) (sx sy : ℝ) (nid : String) (s' : AppState),
        s.tool = ToolType.SELECT → handleMouseDown s sx sy nid = some s' →
        s'.selectedIds =
          (hitTest s.entities s.layers
            (screenToWorld sx sy s.view.x s.view.y s.view.zoom) s.view.zoom).elim []
            fun hit => [hit.id]) ∧
    (∀ s, (handleDelete s).selectedIds = []) ∧
    (∀ s, (handleEscape s).selectedIds = []) := by
  refine ⟨?_, ?_, handleDelete_sel, fun s => rfl⟩
  · intro s hr
    induction hr with
    | refl => exact Nat.zero_le 1
    | tail _ hbc ih => exact step_sel_le_one hbc ih
  · intro s sx sy nid s' htool h
    rw [handleMouseDown_select_eq s sx sy nid
      (screenToWorld sx sy s.view.x s.view.y s.view.zoom) htool rfl] at h
    simp only [Option.some.injEq] at h
    subst h
    rfl

/-- Witness for C10 at the mount state: the initial selection is within the
bound, delete and escape clear it, and a select-click over the empty
drawing empties it (no hit). -/
theorem selection_at_most_one_witness :
    initialState.selectedIds.length ≤ 1 ∧
    (handleDelete initialState).selectedIds = [] ∧
    (handleEscape initialState).selectedIds = [] ∧
    ([] : List String) =
      (hitTest initialState.entities initialState.layers
        (screenToWorld 0 0 initialState.view.x initialState.view.y
          initialState.view.zoom) initialState.view.zoom).elim []
        (fun hit => [hit.id]) := by
  have hmd := handleMouseDown_select_eq initialState 0 0 "n"
    (screenToWorld 0 0 initialState.view.x initialState.view.y
      initialState.view.zoom) rfl rfl
  refine ⟨selection_at_most_one.1 initialState Relation.ReflTransGen.refl,
    selection_at_most_one.2.2.1 initialState,
    selection_at_most_one.2.2.2 initialState,
    selection_at_most_one.2.1 initialState 0 0 "n" _ rfl hmd⟩
